import Mathlib

/-!
Verification of the Candidate Sourcing Aggregation Engine of TradesCompass
(`services/candidate_sourcing.py`) against its natural-language specification.

The Python code is shallowly embedded: dictionaries become structures with
`Option` fields (a missing key is `none`; `d.get(k, '')` becomes
`(f.getD "")`), Python floats — whose values here are all small dyadic
numbers — become `ℚ`, network calls become an explicit environment
(`NetEnv`) of per-provider outcomes, and exceptions raised by the HTTP
layer become the `NetResult.raised` constructor, which each adapter's
`try/except` turns back into a normal return value exactly where the
source does.  Every adapter also returns the list of HTTP requests it
attempted, so "no network I/O" is expressible as an empty request log.
-/

/-! ### Python string primitives (ASCII fragment) -/

/-- Python `str.lower()` restricted to ASCII, as a character map. -/
def pyLower (s : String) : String :=
  String.mk (s.data.map Char.toLower)

/-- Python `str.strip()`: drop leading and trailing whitespace. -/
def pyStrip (s : String) : String :=
  String.mk (((s.data.dropWhile Char.isWhitespace).reverse.dropWhile
    Char.isWhitespace).reverse)

/-- Containment of `n` as a contiguous run inside `l` (Python `in` on lists of
characters); `[]` is contained in everything, as in Python. -/
def listContainsSub [BEq α] (n : List α) : List α → Bool
  | [] => n.isPrefixOf []
  | a :: t => n.isPrefixOf (a :: t) || listContainsSub n t

/-- Python `needle in haystack` substring test on strings. -/
def pyInStr (needle haystack : String) : Bool :=
  listContainsSub needle.data haystack.data

/-- Python truthiness of an optional string: `None` and `''` are falsy. -/
def pyTruthyS (o : Option String) : Bool := o.getD "" ≠ ""

/-- Python truthiness of an optional integer: `None` and `0` are falsy. -/
def pyTruthyN (o : Option Nat) : Bool := o.getD 0 ≠ 0

/-- Python truthiness of an optional list: `None` and `[]` are falsy. -/
def pyTruthyL (o : Option (List String)) : Bool := !(o.getD []).isEmpty

/-- Python `a or b` on an optional string `a` with string fallback `b`. -/
def pyOrS (a : Option String) (b : String) : String :=
  if pyTruthyS a then a.getD "" else b

/-! ### Data model

A raw provider record is a Python dict; `RawRecord` carries every key any
adapter or the fit scorer reads (`user.get`, `person.get`, `profile.get`,
`candidate_data.get` in the source). -/

/-- Raw provider record: the union of all dict keys read by the adapters and
by `_estimate_fit_score`. -/
structure RawRecord where
  html_url : Option String := none
  login : Option String := none
  avatar_url : Option String := none
  first_name : Option String := none
  last_name : Option String := none
  full_name : Option String := none
  email : Option String := none
  phone : Option String := none
  location_name : Option String := none
  job_title : Option String := none
  job_company_name : Option String := none
  skills : Option (List String) := none
  summary : Option String := none
  experience : Option (List String) := none
  education : Option (List String) := none
  linkedin_url : Option String := none
  firstName : Option String := none
  lastName : Option String := none
  phoneNumber : Option String := none
  location : Option String := none
  currentTitle : Option String := none
  currentCompany : Option String := none
  bio : Option String := none
  linkedinUrl : Option String := none
  githubUrl : Option String := none
  yearsOfExperience : Option Nat := none
  company : Option String := none
  resume_snippet : Option String := none
  linkedin : Option String := none
  availability : Option String := none
  salary_range : Option String := none
  title : Option String := none
  experience_years : Option Nat := none
  deriving DecidableEq

/-- Candidate dictionary as built by the four adapters and decorated by the
orchestrator.  A field is `none` when the source never sets that key on the
given provider's candidates (e.g. GitHub candidates have no `email`/`name`). -/
structure Candidate where
  source : String
  profile_url : Option String := none
  username : Option String := none
  avatar_url : Option String := none
  ctype : Option String := none
  first_name : Option String := none
  last_name : Option String := none
  name : Option String := none
  email : Option String := none
  phone : Option String := none
  location : Option String := none
  title : Option String := none
  company : Option String := none
  skills : List String := []
  summary : Option String := none
  resume_text : Option String := none
  experience : List String := []
  education : List String := []
  linkedin_url : Option String := none
  github_url : Option String := none
  experience_years : Option Nat := none
  availability : Option String := none
  salary_expectation : Option String := none
  estimated_fit : Option ℚ := none
  sources_searched : List String := []
  deriving DecidableEq

/-! ### Fit scorer (`_estimate_fit_score`) -/

/-- Embedding of `CandidateSourcingService._estimate_fit_score`.  Base 5.0;
+2.0 when `query.lower()` is a substring of the (raw) title; plus
`min(matched_skills * 0.5, 2.0)`; +1.0 when an experience field is truthy and
at least 5; finally `min(score, 10.0)`. -/
def estimate_fit_score (d : RawRecord) (query : String)
    (required_skills : Option (List String)) : ℚ :=
  let score0 : ℚ := 5
  let score1 :=
    if pyTruthyS d.title || pyTruthyS d.job_title then
      if pyInStr (pyLower query) (pyLower (pyOrS d.title (d.job_title.getD ""))) then
        score0 + 2
      else score0
    else score0
  let score2 :=
    if pyTruthyL required_skills && pyTruthyL d.skills then
      let candidate_skills := (d.skills.getD []).map pyLower
      let matched_skills :=
        ((required_skills.getD []).filter
          (fun s => candidate_skills.contains (pyLower s))).length
      score1 + min ((matched_skills : ℚ) * (1/2)) 2
    else score1
  let score3 :=
    if pyTruthyN d.yearsOfExperience || pyTruthyN d.experience_years then
      let years :=
        if pyTruthyN d.yearsOfExperience then d.yearsOfExperience.getD 0
        else d.experience_years.getD 0
      if years ≥ 5 then score2 + 1 else score2
    else score2
  min score3 10

/-! ### Deduplicator (`_deduplicate_candidates`) -/

/-- Normalised email key: `candidate.get('email', '').lower().strip()`. -/
def normEmail (c : Candidate) : String := pyStrip (pyLower (c.email.getD ""))

/-- Normalised name key: `candidate.get('name', '').lower().strip()`. -/
def normName (c : Candidate) : String := pyStrip (pyLower (c.name.getD ""))

/-- Loop of `_deduplicate_candidates`: `sE`/`sN` are the `seen_emails` and
`seen_names` sets; a dropped candidate registers nothing, a kept candidate
registers whichever non-empty keys it has. -/
def dedupAux : List String → List String → List Candidate → List Candidate
  | _, _, [] => []
  | sE, sN, c :: rest =>
    let email := normEmail c
    let name := normName c
    if email ≠ "" ∧ email ∈ sE then
      dedupAux sE sN rest
    else if email = "" ∧ name ≠ "" ∧ name ∈ sN then
      dedupAux sE sN rest
    else
      c :: dedupAux (if email ≠ "" then email :: sE else sE)
                    (if name ≠ "" then name :: sN else sN) rest

/-- Embedding of `CandidateSourcingService._deduplicate_candidates`. -/
def deduplicate_candidates (candidates : List Candidate) : List Candidate :=
  dedupAux [] [] candidates

/-- A record with no identity signal: both normalised email and normalised
name are empty. -/
def identityless (c : Candidate) : Bool :=
  normEmail c == "" && normName c == ""

/-! ### Configuration, network environment and provider adapters

`Config` mirrors the credential attributes read from `config.Config`.
`NetEnv` fixes, for one aggregation call, the outcome of each provider's
HTTP request: either the request raises (`NetResult.raised`, standing for a
`requests` exception — timeout, connection error, malformed body) or it
returns a status code with a parsed body.  Each adapter returns the list of
candidates it produced together with the list of HTTP requests it attempted,
so credential short-circuits are observable as an empty request log. -/

/-- Outcome of one HTTP request: an exception, or a status code plus the
relevant parsed list of raw records. -/
inductive NetResult (α : Type) where
  | raised : NetResult α
  | resp (status : Nat) (body : α) : NetResult α

/-- Credential attributes of `config.Config` used by the sourcing service. -/
structure Config where
  GITHUB_TOKEN : Option String := none
  PEOPLEDATA_KEY : Option String := none
  SEEKOUT_API_KEY : Option String := none
  SOURCEHUB_API_KEY : Option String := none
  deriving DecidableEq

/-- Per-provider request outcomes for one aggregation call.  GitHub issues
one request per searched skill, the other providers one request per call. -/
structure NetEnv where
  github : String → NetResult (List RawRecord)
  peopledata : NetResult (List RawRecord)
  seekout : NetResult (List RawRecord)
  sourcehub : NetResult (List RawRecord)

/-- Log entry for the GitHub users search request. -/
def ghCall : String := "GET https://api.github.com/search/users"

/-- Log entry for the PeopleDataLabs person search request. -/
def pdlCall : String := "GET https://api.peopledatalabs.com/v5/person/search"

/-- Log entry for the SeekOut talent search request. -/
def soCall : String := "POST https://api.seekout.com/v1/talent/search"

/-- Log entry for the SourceHub candidate search request. -/
def shCall : String := "GET https://api.sourcehub.com/v1/candidates/search"

/-- Candidate dict built for one GitHub user (`_search_github_profiles`,
body of the 200-response loop).  Neither a `name` nor an `email` key is set. -/
def mkGithubCandidate (user : RawRecord) (skill : String)
    (location : Option String) : Candidate :=
  { source := "GitHub"
    profile_url := user.html_url
    username := user.login
    avatar_url := user.avatar_url
    ctype := some "Developer"
    skills := [skill]
    location := some (pyOrS location "Not specified") }

/-- Per-skill request loop of `_search_github_profiles`: an exception aborts
the loop and the candidates accumulated so far are returned by the handler. -/
def githubLoop (env : NetEnv) (location : Option String) :
    List String → List Candidate × List String
  | [] => ([], [])
  | skill :: rest =>
    match env.github skill with
    | .raised => ([], [ghCall])
    | .resp status items =>
      let here :=
        if status = 200 then items.map (fun u => mkGithubCandidate u skill location)
        else []
      let (cs, log) := githubLoop env location rest
      (here ++ cs, ghCall :: log)

/-- Embedding of `_search_github_profiles`.  The GitHub token only changes
request headers, so it does not appear in the observable behaviour. -/
def search_github_profiles (_cfg : Config) (env : NetEnv) (_query : String)
    (location : Option String) (skills : Option (List String)) :
    List Candidate × List String :=
  if pyTruthyL skills then githubLoop env location ((skills.getD []).take 2)
  else ([], [])

/-- Candidate dict built for one PeopleDataLabs person
(`_search_peopledata`, body of the 200-response loop). -/
def mkPDLCandidate (query : String) (location : Option String)
    (skills : Option (List String)) (p : RawRecord) : Candidate :=
  { source := "PeopleDataLabs"
    first_name := some (p.first_name.getD "")
    last_name := some (p.last_name.getD "")
    name := some (p.full_name.getD "")
    email := some (p.email.getD "")
    phone := some (p.phone.getD "")
    location := some (p.location_name.getD (pyOrS location ""))
    title := some (p.job_title.getD "")
    company := some (p.job_company_name.getD "")
    skills := p.skills.getD []
    summary := some (p.summary.getD "")
    experience := p.experience.getD []
    education := p.education.getD []
    linkedin_url := some (p.linkedin_url.getD "")
    estimated_fit := some (estimate_fit_score p query skills) }

/-- Embedding of `_search_peopledata`: a missing/empty key short-circuits
before any request; otherwise one request is attempted and only a 200
response yields candidates. -/
def search_peopledata (cfg : Config) (env : NetEnv) (query : String)
    (location : Option String) (skills : Option (List String)) :
    List Candidate × List String :=
  if !pyTruthyS cfg.PEOPLEDATA_KEY then ([], [])
  else
    match env.peopledata with
    | .raised => ([], [pdlCall])
    | .resp status data =>
      if status = 200 then (data.map (mkPDLCandidate query location skills), [pdlCall])
      else ([], [pdlCall])

/-- Candidate dict built for one SeekOut profile (`_search_seekout`). -/
def mkSeekOutCandidate (query : String) (location : Option String)
    (skills : Option (List String)) (p : RawRecord) : Candidate :=
  { source := "SeekOut"
    first_name := some (p.firstName.getD "")
    last_name := some (p.lastName.getD "")
    name := some (pyStrip ((p.firstName.getD "") ++ " " ++ (p.lastName.getD "")))
    email := some (p.email.getD "")
    phone := some (p.phoneNumber.getD "")
    location := some (p.location.getD (pyOrS location ""))
    title := some (p.currentTitle.getD "")
    company := some (p.currentCompany.getD "")
    skills := p.skills.getD []
    summary := some (p.bio.getD "")
    linkedin_url := some (p.linkedinUrl.getD "")
    github_url := some (p.githubUrl.getD "")
    experience_years := some (p.yearsOfExperience.getD 0)
    estimated_fit := some (estimate_fit_score p query skills) }

/-- Embedding of `_search_seekout`. -/
def search_seekout (cfg : Config) (env : NetEnv) (query : String)
    (location : Option String) (skills : Option (List String)) :
    List Candidate × List String :=
  if !pyTruthyS cfg.SEEKOUT_API_KEY then ([], [])
  else
    match env.seekout with
    | .raised => ([], [soCall])
    | .resp status profiles =>
      if status = 200 then
        (profiles.map (mkSeekOutCandidate query location skills), [soCall])
      else ([], [soCall])

/-- Candidate dict built for one SourceHub record (`_search_sourcehub`). -/
def mkSourceHubCandidate (query : String) (location : Option String)
    (skills : Option (List String)) (p : RawRecord) : Candidate :=
  { source := "SourceHub"
    first_name := some (p.first_name.getD "")
    last_name := some (p.last_name.getD "")
    name := some (p.full_name.getD "")
    email := some (p.email.getD "")
    phone := some (p.phone.getD "")
    location := some (p.location.getD (pyOrS location ""))
    title := some (p.job_title.getD "")
    company := some (p.company.getD "")
    skills := p.skills.getD []
    summary := some (p.summary.getD "")
    resume_text := some (p.resume_snippet.getD "")
    linkedin_url := some (p.linkedin.getD "")
    availability := some (p.availability.getD "Unknown")
    salary_expectation := some (p.salary_range.getD "")
    estimated_fit := some (estimate_fit_score p query skills) }

/-- Embedding of `_search_sourcehub`. -/
def search_sourcehub (cfg : Config) (env : NetEnv) (query : String)
    (location : Option String) (skills : Option (List String)) :
    List Candidate × List String :=
  if !pyTruthyS cfg.SOURCEHUB_API_KEY then ([], [])
  else
    match env.sourcehub with
    | .raised => ([], [shCall])
    | .resp status cands =>
      if status = 200 then
        (cands.map (mkSourceHubCandidate query location skills), [shCall])
      else ([], [shCall])

/-! ### Aggregation orchestrator -/

/-- Query construction of `search_public_profiles`: job title, then the
location when truthy, then the first three skills when truthy. -/
def build_search_query (job_title : String) (location : Option String)
    (skills : Option (List String)) : String :=
  String.intercalate " "
    ([job_title]
      ++ (if pyTruthyS location then [location.getD ""] else [])
      ++ (if pyTruthyL skills then (skills.getD []).take 3 else []))

/-- Flat concatenation of the four providers' candidate lists, in provider
call order (extending with an empty list is a no-op, so the `if candidates:`
guard of the source is behaviourally absorbed here). -/
def all_collected (cfg : Config) (env : NetEnv) (job_title : String)
    (location : Option String) (skills : Option (List String)) : List Candidate :=
  let sq := build_search_query job_title location skills
  (search_github_profiles cfg env sq location skills).1
    ++ (search_peopledata cfg env sq location skills).1
    ++ (search_seekout cfg env sq location skills).1
    ++ (search_sourcehub cfg env sq location skills).1

/-- Provider names appended to `sources_searched`, in call order, exactly for
the providers whose call returned a non-empty candidate list. -/
def sources_of (g p s h : List Candidate) : List String :=
  (if g ≠ [] then ["GitHub"] else [])
    ++ (if p ≠ [] then ["PeopleDataLabs"] else [])
    ++ (if s ≠ [] then ["SeekOut"] else [])
    ++ (if h ≠ [] then ["SourceHub"] else [])

/-- Embedding of `CandidateSourcingService.search_public_profiles`.  The
second component is the combined HTTP request log of the four adapters; the
unused `experience_years` parameter is kept from the source signature. -/
def search_public_profiles (cfg : Config) (env : NetEnv) (job_title : String)
    (location : Option String) (skills : Option (List String))
    (_experience_years : Option Nat) : List Candidate × List String :=
  let sq := build_search_query job_title location skills
  let g := search_github_profiles cfg env sq location skills
  let p := search_peopledata cfg env sq location skills
  let s := search_seekout cfg env sq location skills
  let h := search_sourcehub cfg env sq location skills
  let sources_searched := sources_of g.1 p.1 s.1 h.1
  let deduped := deduplicate_candidates (g.1 ++ p.1 ++ s.1 ++ h.1)
  (deduped.map (fun c => { c with sources_searched := sources_searched }),
    g.2 ++ p.2 ++ s.2 ++ h.2)

/-- Return shape of the standalone `search_external_candidates` function. -/
structure AggregatedResult where
  candidates : List Candidate
  total_found : Nat
  sources_searched : List String
  deriving DecidableEq

/-- Embedding of the standalone `search_external_candidates`: truncate to
`limit`, report `total_found` as the length of the truncated list, and a
hardcoded `sources_searched` value. -/
def search_external_candidates (cfg : Config) (env : NetEnv) (query : String)
    (location : Option String) (skills : Option (List String)) (limit : Nat) :
    AggregatedResult × List String :=
  let r := search_public_profiles cfg env query location skills none
  let candidates := r.1
  let limited := if candidates.length > limit then candidates.take limit else candidates
  ({ candidates := limited
     total_found := limited.length
     sources_searched := ["GitHub", "Public Profiles"] }, r.2)

/-! ### Spec-side scorer formulas

`spec_fit_score` renders §4.3 of the specification verbatim (skills bonus
`matched/total * 2.0` capped at 2.0, final clamp to `[0, 10]`); it exists
only to be compared against `estimate_fit_score`, the embedding of the
code.  `spec_fit_score_amended` is the same formula with the skills term
replaced by the one the code implements (`min(matched * 0.5, 2.0)`). -/

/-- Fit formula as worded by the specification (§4.3): skills bonus is the
matched fraction times 2.0, capped at 2.0. -/
def spec_fit_score (d : RawRecord) (query : String)
    (required_skills : List String) : ℚ :=
  let title := pyLower (pyOrS d.title (d.job_title.getD ""))
  let title_bonus : ℚ := if pyInStr (pyLower query) title then 2 else 0
  let candidate_skills := (d.skills.getD []).map pyLower
  let matched :=
    (required_skills.filter (fun s => candidate_skills.contains (pyLower s))).length
  let total := required_skills.length
  let skills_bonus : ℚ :=
    if total = 0 then 0 else min ((matched : ℚ) / (total : ℚ) * 2) 2
  let years :=
    if pyTruthyN d.yearsOfExperience then d.yearsOfExperience.getD 0
    else d.experience_years.getD 0
  let exp_bonus : ℚ := if years ≥ 5 then 1 else 0
  max 0 (min (5 + title_bonus + skills_bonus + exp_bonus) 10)

/-- Amended fit formula: identical to `spec_fit_score` except that the
skills bonus is `min(matched * 0.5, 2.0)`, as the code computes it. -/
def spec_fit_score_amended (d : RawRecord) (query : String)
    (required_skills : List String) : ℚ :=
  let title := pyLower (pyOrS d.title (d.job_title.getD ""))
  let title_bonus : ℚ := if pyInStr (pyLower query) title then 2 else 0
  let candidate_skills := (d.skills.getD []).map pyLower
  let matched :=
    (required_skills.filter (fun s => candidate_skills.contains (pyLower s))).length
  let skills_bonus : ℚ := min ((matched : ℚ) * (1/2)) 2
  let years :=
    if pyTruthyN d.yearsOfExperience then d.yearsOfExperience.getD 0
    else d.experience_years.getD 0
  let exp_bonus : ℚ := if years ≥ 5 then 1 else 0
  max 0 (min (5 + title_bonus + skills_bonus + exp_bonus) 10)

/-! ### Deduplicator lemmas -/

/-- Step equation of `dedupAux`: first drop condition holds. -/
theorem dedupAux_cons_dropE {c : Candidate} {sE sN : List String}
    {rest : List Candidate} (h1 : normEmail c ≠ "" ∧ normEmail c ∈ sE) :
    dedupAux sE sN (c :: rest) = dedupAux sE sN rest := by
  simp only [dedupAux]
  rw [if_pos h1]

/-- Step equation of `dedupAux`: second drop condition holds. -/
theorem dedupAux_cons_dropN {c : Candidate} {sE sN : List String}
    {rest : List Candidate}
    (h1 : ¬(normEmail c ≠ "" ∧ normEmail c ∈ sE))
    (h2 : normEmail c = "" ∧ normName c ≠ "" ∧ normName c ∈ sN) :
    dedupAux sE sN (c :: rest) = dedupAux sE sN rest := by
  simp only [dedupAux]
  rw [if_neg h1, if_pos h2]

/-- Step equation of `dedupAux`: the candidate is kept and registers its
non-empty keys. -/
theorem dedupAux_cons_keep {c : Candidate} {sE sN : List String}
    {rest : List Candidate}
    (h1 : ¬(normEmail c ≠ "" ∧ normEmail c ∈ sE))
    (h2 : ¬(normEmail c = "" ∧ normName c ≠ "" ∧ normName c ∈ sN)) :
    dedupAux sE sN (c :: rest) =
      c :: dedupAux (if normEmail c ≠ "" then normEmail c :: sE else sE)
        (if normName c ≠ "" then normName c :: sN else sN) rest := by
  simp only [dedupAux]
  rw [if_neg h1, if_neg h2]

theorem dedupAux_sublist :
    ∀ (l : List Candidate) (sE sN : List String),
      (dedupAux sE sN l).Sublist l := by
  intro l
  induction l with
  | nil => intro sE sN; simp [dedupAux]
  | cons c rest ih =>
    intro sE sN
    by_cases h1 : normEmail c ≠ "" ∧ normEmail c ∈ sE
    · rw [dedupAux_cons_dropE h1]
      exact (ih sE sN).trans (List.sublist_cons_self c rest)
    · by_cases h2 : normEmail c = "" ∧ normName c ≠ "" ∧ normName c ∈ sN
      · rw [dedupAux_cons_dropN h1 h2]
        exact (ih sE sN).trans (List.sublist_cons_self c rest)
      · rw [dedupAux_cons_keep h1 h2]
        exact (ih _ _).cons₂ c

theorem dedupAux_idem :
    ∀ (l : List Candidate) (sE sN : List String),
      dedupAux sE sN (dedupAux sE sN l) = dedupAux sE sN l := by
  intro l
  induction l with
  | nil => intro sE sN; rfl
  | cons c rest ih =>
    intro sE sN
    by_cases h1 : normEmail c ≠ "" ∧ normEmail c ∈ sE
    · rw [dedupAux_cons_dropE h1]
      exact ih sE sN
    · by_cases h2 : normEmail c = "" ∧ normName c ≠ "" ∧ normName c ∈ sN
      · rw [dedupAux_cons_dropN h1 h2]
        exact ih sE sN
      · rw [dedupAux_cons_keep h1 h2, dedupAux_cons_keep h1 h2, ih]

theorem dedupAux_email_not_seen :
    ∀ (l : List Candidate) (sE sN : List String) (c : Candidate),
      c ∈ dedupAux sE sN l → normEmail c ≠ "" → normEmail c ∉ sE := by
  intro l
  induction l with
  | nil => intro sE sN c hc; simp [dedupAux] at hc
  | cons a rest ih =>
    intro sE sN c hc hne
    by_cases h1 : normEmail a ≠ "" ∧ normEmail a ∈ sE
    · rw [dedupAux_cons_dropE h1] at hc
      exact ih sE sN c hc hne
    · by_cases h2 : normEmail a = "" ∧ normName a ≠ "" ∧ normName a ∈ sN
      · rw [dedupAux_cons_dropN h1 h2] at hc
        exact ih sE sN c hc hne
      · rw [dedupAux_cons_keep h1 h2] at hc
        rcases List.mem_cons.mp hc with rfl | hmem
        · exact fun hmemE => h1 ⟨hne, hmemE⟩
        · intro hmemE
          refine ih _ _ c hmem hne ?_
          by_cases ha : normEmail a ≠ ""
          · rw [if_pos ha]; exact List.mem_cons_of_mem _ hmemE
          · rw [if_neg ha]; exact hmemE

theorem dedupAux_email_pairwise :
    ∀ (l : List Candidate) (sE sN : List String),
      (dedupAux sE sN l).Pairwise
        (fun a b => normEmail a ≠ "" → normEmail b ≠ "" → normEmail a ≠ normEmail b) := by
  intro l
  induction l with
  | nil => intro sE sN; simp [dedupAux]
  | cons c rest ih =>
    intro sE sN
    by_cases h1 : normEmail c ≠ "" ∧ normEmail c ∈ sE
    · rw [dedupAux_cons_dropE h1]
      exact ih sE sN
    · by_cases h2 : normEmail c = "" ∧ normName c ≠ "" ∧ normName c ∈ sN
      · rw [dedupAux_cons_dropN h1 h2]
        exact ih sE sN
      · rw [dedupAux_cons_keep h1 h2]
        refine List.Pairwise.cons ?_ (ih _ _)
        intro b hb hcne hbne
        have hb' := dedupAux_email_not_seen _ _ _ b hb hbne
        rw [if_pos hcne, List.mem_cons] at hb'
        push_neg at hb'
        exact fun heq => hb'.1 heq.symm

theorem countP_email_eq_one :
    ∀ (l : List Candidate),
      l.Pairwise
        (fun a b => normEmail a ≠ "" → normEmail b ≠ "" → normEmail a ≠ normEmail b) →
      ∀ c ∈ l, normEmail c ≠ "" →
        l.countP (fun d => normEmail d == normEmail c) = 1 := by
  intro l
  induction l with
  | nil => intro _ c hc; simp at hc
  | cons a t ih =>
    intro hp c hc hne
    rw [List.pairwise_cons] at hp
    rcases List.mem_cons.mp hc with rfl | hmem
    · rw [List.countP_cons]
      have h0 : t.countP (fun d => normEmail d == normEmail c) = 0 := by
        rw [List.countP_eq_zero]
        intro d hd hbeq
        have hde : normEmail d = normEmail c := by
          simpa using hbeq
        exact hp.1 d hd hne (hde ▸ hne) hde.symm
      simp [h0]
    · rw [List.countP_cons]
      have hne_a : ¬(normEmail a == normEmail c) = true := by
        intro hbeq
        have hae : normEmail a = normEmail c := by simpa using hbeq
        exact hp.1 c hmem (hae ▸ hne) hne hae
      rw [ih hp.2 c hmem hne]
      simp [hne_a]

theorem dedupAux_filter_identityless :
    ∀ (l : List Candidate) (sE sN : List String),
      (dedupAux sE sN l).filter identityless = l.filter identityless := by
  intro l
  induction l with
  | nil => intro sE sN; rfl
  | cons c rest ih =>
    intro sE sN
    by_cases h1 : normEmail c ≠ "" ∧ normEmail c ∈ sE
    · rw [dedupAux_cons_dropE h1, ih, List.filter_cons_of_neg]
      simp only [identityless, Bool.and_eq_true, beq_iff_eq, not_and]
      intro hE _
      exact h1.1 hE
    · by_cases h2 : normEmail c = "" ∧ normName c ≠ "" ∧ normName c ∈ sN
      · rw [dedupAux_cons_dropN h1 h2, ih, List.filter_cons_of_neg]
        simp only [identityless, Bool.and_eq_true, beq_iff_eq, not_and]
        intro _ hN
        exact h2.2.1 hN
      · rw [dedupAux_cons_keep h1 h2]
        by_cases hid : identityless c = true
        · have heq : normEmail c = "" ∧ normName c = "" := by
            simpa [identityless] using hid
          rw [List.filter_cons_of_pos hid, if_neg (by simp [heq.1]),
            if_neg (by simp [heq.2]), ih, List.filter_cons_of_pos hid]
        · rw [List.filter_cons_of_neg hid, List.filter_cons_of_neg hid, ih]

/-! ### Scorer lemmas -/

theorem pyTruthyS_eq_false {o : Option String} (h : pyTruthyS o = false) :
    o.getD "" = "" := by
  simpa [pyTruthyS] using h

theorem pyTruthyL_eq_false {o : Option (List String)} (h : pyTruthyL o = false) :
    o.getD [] = [] := by
  simpa [pyTruthyL, List.isEmpty_iff] using h

theorem pyTruthyN_eq_false {o : Option Nat} (h : pyTruthyN o = false) :
    o.getD 0 = 0 := by
  simpa [pyTruthyN] using h

/-- A non-empty needle is not contained in the empty haystack. -/
theorem pyInStr_empty_haystack {q : String} (hq : q ≠ "") :
    pyInStr (pyLower q) "" = false := by
  cases q with
  | mk l =>
    cases l with
    | nil => exact absurd rfl hq
    | cons a t => rfl

/-- The skills term of the code's scorer, as a standalone count. -/
theorem matched_count_zero_left {rs : Option (List String)}
    {sk : Option (List String)} (h : rs.getD [] = []) :
    ((rs.getD []).filter
      (fun s => ((sk.getD []).map pyLower).contains (pyLower s))).length = 0 := by
  simp [h]

theorem matched_count_zero_right {rs : Option (List String)}
    {sk : Option (List String)} (h : sk.getD [] = []) :
    ((rs.getD []).filter
      (fun s => ((sk.getD []).map pyLower).contains (pyLower s))).length = 0 := by
  simp [h]

/-- The code's sequential scorer agrees with the amended closed formula for
every non-empty query. -/
theorem fit_score_amended_agrees (d : RawRecord) (q : String)
    (rs : Option (List String)) (hq : q ≠ "") :
    estimate_fit_score d q rs = spec_fit_score_amended d q (rs.getD []) := by
  simp only [estimate_fit_score, spec_fit_score_amended]
  have h1 :
      (if pyTruthyS d.title || pyTruthyS d.job_title then
        (if pyInStr (pyLower q) (pyLower (pyOrS d.title (d.job_title.getD ""))) then
          (5:ℚ) + 2
        else 5)
      else 5)
      = 5 + (if pyInStr (pyLower q) (pyLower (pyOrS d.title (d.job_title.getD ""))) then
          (2:ℚ) else 0) := by
    by_cases hA : (pyTruthyS d.title || pyTruthyS d.job_title) = true
    · by_cases hB :
        pyInStr (pyLower q) (pyLower (pyOrS d.title (d.job_title.getD ""))) = true
      · simp [hA, hB]
      · simp [hA, hB]
    · have hA2 := hA
      simp only [Bool.or_eq_true, not_or, Bool.not_eq_true] at hA2
      have hT : pyOrS d.title (d.job_title.getD "") = "" := by
        rw [pyOrS, if_neg (by simp [hA2.1])]
        exact pyTruthyS_eq_false hA2.2
      have hB : pyInStr (pyLower q) (pyLower (pyOrS d.title (d.job_title.getD ""))) = false := by
        rw [hT, show pyLower "" = "" from rfl]
        exact pyInStr_empty_haystack hq
      simp [hA, hB]
  have h2 : ∀ x : ℚ,
      (if pyTruthyL rs && pyTruthyL d.skills then
        x + min (((((rs.getD []).filter
          (fun s => ((d.skills.getD []).map pyLower).contains (pyLower s))).length : ℕ) : ℚ)
            * (1/2)) 2
      else x)
      = x + min (((((rs.getD []).filter
          (fun s => ((d.skills.getD []).map pyLower).contains (pyLower s))).length : ℕ) : ℚ)
            * (1/2)) 2 := by
    intro x
    by_cases hC : (pyTruthyL rs && pyTruthyL d.skills) = true
    · simp [hC]
    · have hC2 := hC
      simp only [Bool.and_eq_true, not_and_or, Bool.not_eq_true] at hC2
      have hM : ((rs.getD []).filter
          (fun s => ((d.skills.getD []).map pyLower).contains (pyLower s))).length = 0 := by
        rcases hC2 with h | h
        · exact matched_count_zero_left (pyTruthyL_eq_false h)
        · exact matched_count_zero_right (pyTruthyL_eq_false h)
      rw [if_neg hC, hM]
      norm_num
  have h3 : ∀ x : ℚ,
      (if pyTruthyN d.yearsOfExperience || pyTruthyN d.experience_years then
        (if (if pyTruthyN d.yearsOfExperience then d.yearsOfExperience.getD 0
             else d.experience_years.getD 0) ≥ 5 then x + 1 else x)
      else x)
      = x + (if (if pyTruthyN d.yearsOfExperience then d.yearsOfExperience.getD 0
             else d.experience_years.getD 0) ≥ 5 then (1:ℚ) else 0) := by
    intro x
    by_cases hD : (pyTruthyN d.yearsOfExperience || pyTruthyN d.experience_years) = true
    · by_cases hE : (if pyTruthyN d.yearsOfExperience then d.yearsOfExperience.getD 0
          else d.experience_years.getD 0) ≥ 5
      · simp [hD, hE]
      · simp [hD, hE]
    · have hD2 := hD
      simp only [Bool.or_eq_true, not_or, Bool.not_eq_true] at hD2
      have hY : (if pyTruthyN d.yearsOfExperience then d.yearsOfExperience.getD 0
          else d.experience_years.getD 0) = 0 := by
        rw [if_neg (by simp [hD2.1])]
        exact pyTruthyN_eq_false hD2.2
      have hE : ¬((if pyTruthyN d.yearsOfExperience then d.yearsOfExperience.getD 0
          else d.experience_years.getD 0) ≥ 5) := by
        rw [hY]; decide
      simp [hD, hE]
  simp only [h1, h2, h3]
  have htB : (0:ℚ) ≤ (if pyInStr (pyLower q)
      (pyLower (pyOrS d.title (d.job_title.getD ""))) then (2:ℚ) else 0) := by
    split_ifs <;> norm_num
  have heB : (0:ℚ) ≤ (if (if pyTruthyN d.yearsOfExperience then d.yearsOfExperience.getD 0
      else d.experience_years.getD 0) ≥ 5 then (1:ℚ) else 0) := by
    split_ifs <;> norm_num
  have hM0 : (0:ℚ) ≤ min (((((rs.getD []).filter
      (fun s => ((d.skills.getD []).map pyLower).contains (pyLower s))).length : ℕ) : ℚ)
        * (1/2)) 2 :=
    le_min (by positivity) (by norm_num)
  rw [max_eq_right (le_min (by linarith) (by norm_num))]

/-! ### Claim theorems: scorer bounds and deduplicator properties -/

/-- C9: for every candidate raw record, query and request skill list, the
fit score computed by `_estimate_fit_score` lies within the bounds
`0 <= score <= 10`. -/
theorem C9_score_bounds :
    ∀ (d : RawRecord) (q : String) (rs : Option (List String)),
      0 ≤ estimate_fit_score d q rs ∧ estimate_fit_score d q rs ≤ 10 := by
  intro d q rs
  simp only [estimate_fit_score]
  have hM0 : (0:ℚ) ≤ min (((((rs.getD []).filter
      (fun s => ((d.skills.getD []).map pyLower).contains (pyLower s))).length : ℕ) : ℚ)
        * (1/2)) 2 :=
    le_min (by positivity) (by norm_num)
  constructor
  · refine le_min ?_ (by norm_num)
    split_ifs <;> linarith
  · exact min_le_right _ _

/-- C7: the deduplicator is idempotent — applying
`_deduplicate_candidates` to its own output returns that output
unchanged. -/
theorem C7_dedupe_idempotent :
    ∀ l : List Candidate,
      deduplicate_candidates (deduplicate_candidates l) = deduplicate_candidates l :=
  fun l => dedupAux_idem l [] []

/-- C8: deduplication never lengthens the list, and every non-empty
normalised email value in the output occurs on exactly one output
candidate. -/
theorem C8_dedupe_length_email_unique :
    ∀ l : List Candidate,
      (deduplicate_candidates l).length ≤ l.length ∧
      ∀ c ∈ deduplicate_candidates l, normEmail c ≠ "" →
        (deduplicate_candidates l).countP
          (fun d => normEmail d == normEmail c) = 1 := by
  intro l
  refine ⟨(dedupAux_sublist l [] []).length_le, ?_⟩
  intro c hc hne
  exact countP_email_eq_one _ (dedupAux_email_pairwise l [] []) c hc hne

/-- Two candidates sharing a normalised email, used to witness C8. -/
def candA : Candidate :=
  { source := "PeopleDataLabs", name := some "Ann Smith", email := some "a@x.com" }

/-- Duplicate of `candA` up to email case and whitespace. -/
def candB : Candidate :=
  { source := "SeekOut", name := some "Ann B", email := some "A@x.com " }

/-- Witness for C8 at a concrete two-element list with duplicate emails. -/
theorem C8_dedupe_length_email_unique_witness :
    (deduplicate_candidates [candA, candB]).length ≤ 2 ∧
    (deduplicate_candidates [candA, candB]).countP
      (fun d => normEmail d == normEmail candA) = 1 := by
  have h := C8_dedupe_length_email_unique [candA, candB]
  exact ⟨h.1, h.2 candA (by decide) (by decide)⟩

/-- C10: identity-less candidates (no email and no name, as every GitHub
adapter record) pass through deduplication unconditionally, duplicates
included. -/
theorem C10_identityless_pass_through :
    (∀ l : List Candidate,
      (deduplicate_candidates l).filter identityless = l.filter identityless) ∧
    (∀ (u : RawRecord) (skill : String) (loc : Option String),
      identityless (mkGithubCandidate u skill loc) = true) := by
  constructor
  · intro l
    exact dedupAux_filter_identityless l [] []
  · intro u skill loc
    rfl

/-! ### Claim C1: the fit score formula and its §4.3/Scenario-3 value -/

/-- Scenario 3 of the specification: candidate titled "Senior Electrician"
with skills `{"licensed"}`. -/
def c1_scenario : RawRecord :=
  { title := some "Senior Electrician", skills := some ["licensed"] }

/-- The code's score on Scenario 3 is 7.5. -/
theorem c1_code_score :
    estimate_fit_score c1_scenario "electrician" (some ["licensed", "osha"]) = 15/2 := by
  simp only [estimate_fit_score, c1_scenario]
  norm_num [show pyTruthyL (some ["licensed", "osha"]) = true from rfl,
    show pyTruthyL (some ["licensed"]) = true from rfl,
    show pyTruthyS (some "Senior Electrician") = true from rfl,
    show pyInStr (pyLower "electrician")
      (pyLower (pyOrS (some "Senior Electrician") "")) = true from rfl,
    show pyLower "osha" = "osha" from rfl,
    show pyLower "licensed" = "licensed" from rfl,
    List.filter_cons, List.filter_nil,
    show (if "osha" = "licensed" then ["osha"] else ([] : List String)) = []
      from rfl]

/-- The specification's own formula gives 8.0 on Scenario 3. -/
theorem c1_spec_score :
    spec_fit_score c1_scenario "electrician" ["licensed", "osha"] = 8 := by
  simp only [spec_fit_score, c1_scenario]
  norm_num [show pyInStr (pyLower "electrician")
      (pyLower (pyOrS (some "Senior Electrician") "")) = true from rfl,
    show pyLower "osha" = "osha" from rfl,
    show pyLower "licensed" = "licensed" from rfl,
    List.filter_cons, List.filter_nil,
    show (if "osha" = "licensed" then ["osha"] else ([] : List String)) = []
      from rfl]

/-- C1 counterexample: on Scenario 3 the code scores 7.5 while the claimed
formula (skills bonus `matched/total * 2.0`) scores 8.0, so the claim is
false as stated. -/
theorem C1_counterexample :
    estimate_fit_score c1_scenario "electrician" (some ["licensed", "osha"]) = 15/2 ∧
    spec_fit_score c1_scenario "electrician" ["licensed", "osha"] = 8 ∧
    (15/2 : ℚ) ≠ 8 :=
  ⟨c1_code_score, c1_spec_score, by norm_num⟩

/-- C1 (amended): the fit score equals base 5.0, plus 2.0 on a
case-insensitive title substring match, plus `min(0.5 * matched skills, 2.0)`
(not the matched fraction times 2.0), plus 1.0 for an experience signal of at
least 5 years, clamped to `[0, 10]`; on Scenario 3 the score is exactly 7.5. -/
theorem C1_score_formula :
    (∀ (d : RawRecord) (q : String) (rs : Option (List String)), q ≠ "" →
      estimate_fit_score d q rs = spec_fit_score_amended d q (rs.getD [])) ∧
    estimate_fit_score c1_scenario "electrician" (some ["licensed", "osha"]) = 15/2 :=
  ⟨fun d q rs hq => fit_score_amended_agrees d q rs hq, c1_code_score⟩

/-- Witness for C1 at Scenario 3, discharging the non-empty-query
hypothesis. -/
theorem C1_score_formula_witness :
    estimate_fit_score c1_scenario "electrician" (some ["licensed", "osha"]) =
      spec_fit_score_amended c1_scenario "electrician" ["licensed", "osha"] :=
  C1_score_formula.1 c1_scenario "electrician" (some ["licensed", "osha"]) (by decide)

/-! ### Pipeline lemmas and claims C2-C6 -/

/-- Estimated fit of a candidate dict, defaulting to the specification's
default 5.0 when the provider set no `estimated_fit` key. -/
def fitOr5 (c : Candidate) : ℚ := c.estimated_fit.getD 5

/-- C4 (amended): `total_found` equals the number of candidates after
truncation to the result limit (not the pre-truncation count), so it never
exceeds the limit. -/
theorem C4_total_found_after_truncation :
    ∀ (cfg : Config) (env : NetEnv) (q : String) (loc : Option String)
      (sk : Option (List String)) (lim : Nat),
      (search_external_candidates cfg env q loc sk lim).1.total_found
        = (search_external_candidates cfg env q loc sk lim).1.candidates.length ∧
      (search_external_candidates cfg env q loc sk lim).1.candidates.length ≤ lim := by
  intro cfg env q loc sk lim
  refine ⟨rfl, ?_⟩
  simp only [search_external_candidates]
  by_cases hlen : (search_public_profiles cfg env q loc sk none).1.length > lim
  · rw [if_pos hlen]
    simp
  · rw [if_neg hlen]
    omega

/-- Decorating candidates with provenance metadata does not change their
estimated fit. -/
theorem map_fitOr5_sources_update (srcs : List String) (D : List Candidate) :
    ((D.map (fun c => { c with sources_searched := srcs })).map fitOr5) = D.map fitOr5 := by
  rw [List.map_map]
  rfl

/-- The fit sequence produced by `search_public_profiles` is the fit
sequence of the deduplicated flat collection. -/
theorem map_fitOr5_search_public_profiles (cfg : Config) (env : NetEnv)
    (q : String) (loc : Option String) (sk : Option (List String)) :
    ((search_public_profiles cfg env q loc sk none).1.map fitOr5)
      = (deduplicate_candidates (all_collected cfg env q loc sk)).map fitOr5 := by
  simp only [search_public_profiles, all_collected]
  exact map_fitOr5_sources_update _ _

/-- C5 (amended): the returned candidates keep the provider-call order — the
output fit sequence is a subsequence of the collected (pre-dedup, pre-
truncation) fit sequence; no sort by `estimated_fit` is performed. -/
theorem C5_provider_order :
    ∀ (cfg : Config) (env : NetEnv) (q : String) (loc : Option String)
      (sk : Option (List String)) (lim : Nat),
      ((search_external_candidates cfg env q loc sk lim).1.candidates.map fitOr5).Sublist
        ((all_collected cfg env q loc sk).map fitOr5) := by
  intro cfg env q loc sk lim
  have hsub : ((search_public_profiles cfg env q loc sk none).1.map fitOr5).Sublist
      ((all_collected cfg env q loc sk).map fitOr5) := by
    rw [map_fitOr5_search_public_profiles]
    exact (dedupAux_sublist _ [] []).map fitOr5
  simp only [search_external_candidates]
  by_cases hlen : (search_public_profiles cfg env q loc sk none).1.length > lim
  · rw [if_pos hlen, List.map_take]
    exact (List.take_sublist _ _).trans hsub
  · rw [if_neg hlen]
    exact hsub

/-- Missing/empty PeopleDataLabs key: the adapter returns no candidates and
attempts no HTTP request. -/
theorem search_peopledata_no_key {cfg : Config} (env : NetEnv) (q : String)
    (l : Option String) (s : Option (List String))
    (h : pyTruthyS cfg.PEOPLEDATA_KEY = false) :
    search_peopledata cfg env q l s = ([], []) := by
  simp [search_peopledata, h]

/-- Missing/empty SeekOut key: no candidates, no HTTP request. -/
theorem search_seekout_no_key {cfg : Config} (env : NetEnv) (q : String)
    (l : Option String) (s : Option (List String))
    (h : pyTruthyS cfg.SEEKOUT_API_KEY = false) :
    search_seekout cfg env q l s = ([], []) := by
  simp [search_seekout, h]

/-- Missing/empty SourceHub key: no candidates, no HTTP request. -/
theorem search_sourcehub_no_key {cfg : Config} (env : NetEnv) (q : String)
    (l : Option String) (s : Option (List String))
    (h : pyTruthyS cfg.SOURCEHUB_API_KEY = false) :
    search_sourcehub cfg env q l s = ([], []) := by
  simp [search_sourcehub, h]

/-- Configuration with no provider credential set at all. -/
def noKeysCfg : Config := {}

/-- Environment in which every HTTP request raises. -/
def envAllRaise : NetEnv :=
  { github := fun _ => .raised
    peopledata := .raised
    seekout := .raised
    sourcehub := .raised }

/-- Under the all-raising environment, the GitHub adapter yields no
candidates whatever the skills argument. -/
theorem search_github_allraise_fst (cfg : Config) (q : String)
    (loc : Option String) (sk : Option (List String)) :
    (search_github_profiles cfg envAllRaise q loc sk).1 = [] := by
  rcases sk with _ | l
  · rfl
  · cases l with
    | nil => rfl
    | cons a t => rfl

/-- Under the all-raising environment, PeopleDataLabs yields no candidates. -/
theorem search_peopledata_allraise_fst (cfg : Config) (q : String)
    (loc : Option String) (sk : Option (List String)) :
    (search_peopledata cfg envAllRaise q loc sk).1 = [] := by
  simp only [search_peopledata]
  split_ifs <;> rfl

/-- Under the all-raising environment, SeekOut yields no candidates. -/
theorem search_seekout_allraise_fst (cfg : Config) (q : String)
    (loc : Option String) (sk : Option (List String)) :
    (search_seekout cfg envAllRaise q loc sk).1 = [] := by
  simp only [search_seekout]
  split_ifs <;> rfl

/-- Under the all-raising environment, SourceHub yields no candidates. -/
theorem search_sourcehub_allraise_fst (cfg : Config) (q : String)
    (loc : Option String) (sk : Option (List String)) :
    (search_sourcehub cfg envAllRaise q loc sk).1 = [] := by
  simp only [search_sourcehub]
  split_ifs <;> rfl

/-- C2 (amended): the aggregated result's `sources_searched` field is the
hardcoded constant `['GitHub', 'Public Profiles']` regardless of which
providers succeeded; with every credential missing/empty and falsy skills
the search still returns normally, with an empty candidate list. -/
theorem C2_provenance_hardcoded :
    ∀ (cfg : Config) (env : NetEnv) (q : String) (loc : Option String)
      (sk : Option (List String)) (lim : Nat),
      (search_external_candidates cfg env q loc sk lim).1.sources_searched
        = ["GitHub", "Public Profiles"] ∧
      (pyTruthyS cfg.PEOPLEDATA_KEY = false → pyTruthyS cfg.SEEKOUT_API_KEY = false →
        pyTruthyS cfg.SOURCEHUB_API_KEY = false → pyTruthyL sk = false →
        (search_external_candidates cfg env q loc sk lim).1.candidates = []) := by
  intro cfg env q loc sk lim
  refine ⟨rfl, ?_⟩
  intro h1 h2 h3 h4
  simp only [search_external_candidates, search_public_profiles,
    search_peopledata_no_key env _ loc sk h1, search_seekout_no_key env _ loc sk h2,
    search_sourcehub_no_key env _ loc sk h3, search_github_profiles, h4]
  simp [deduplicate_candidates, dedupAux, sources_of]

/-- C3 (amended): no request validation exists — an empty
`job_title_or_keywords` raises nothing, and with a configured
PeopleDataLabs key the empty-keyword search still performs a provider HTTP
request. -/
theorem C3_empty_query_not_validated :
    ∀ (cfg : Config) (env : NetEnv) (loc : Option String)
      (sk : Option (List String)) (lim : Nat),
      pyTruthyS cfg.PEOPLEDATA_KEY = true →
      (search_external_candidates cfg env "" loc sk lim).2 ≠ [] := by
  intro cfg env loc sk lim hkey
  have hp : (search_peopledata cfg env (build_search_query "" loc sk) loc sk).2
      = [pdlCall] := by
    unfold search_peopledata
    rw [hkey, if_neg (by decide)]
    cases henv : env.peopledata with
    | raised => rfl
    | resp status body =>
      dsimp only
      split_ifs <;> rfl
  simp only [search_external_candidates, search_public_profiles]
  rw [hp]
  simp [List.append_eq_nil]

/-- C6: no provider failure is fatal — for any configuration and any
network behaviour (including every request raising) the entry point returns
a consistent result; an adapter whose credential is missing returns an
empty list with an empty request log (no network I/O); under the
all-raising environment the result is empty but well-formed. -/
theorem C6_fail_soft :
    ∀ (cfg : Config) (q : String) (loc : Option String)
      (sk : Option (List String)) (lim : Nat), q ≠ "" →
      (∀ env : NetEnv,
        (search_external_candidates cfg env q loc sk lim).1.total_found
          = (search_external_candidates cfg env q loc sk lim).1.candidates.length) ∧
      (search_external_candidates cfg envAllRaise q loc sk lim).1.candidates = [] ∧
      (pyTruthyS cfg.PEOPLEDATA_KEY = false →
        ∀ (env : NetEnv) (q2 : String) (l2 : Option String) (s2 : Option (List String)),
          search_peopledata cfg env q2 l2 s2 = ([], [])) ∧
      (pyTruthyS cfg.SEEKOUT_API_KEY = false →
        ∀ (env : NetEnv) (q2 : String) (l2 : Option String) (s2 : Option (List String)),
          search_seekout cfg env q2 l2 s2 = ([], [])) ∧
      (pyTruthyS cfg.SOURCEHUB_API_KEY = false →
        ∀ (env : NetEnv) (q2 : String) (l2 : Option String) (s2 : Option (List String)),
          search_sourcehub cfg env q2 l2 s2 = ([], [])) := by
  intro cfg q loc sk lim _
  refine ⟨fun env => rfl, ?_, ?_, ?_, ?_⟩
  · simp only [search_external_candidates, search_public_profiles,
      search_github_allraise_fst, search_peopledata_allraise_fst,
      search_seekout_allraise_fst, search_sourcehub_allraise_fst]
    simp [deduplicate_candidates, dedupAux, sources_of]
  · intro h env q2 l2 s2
    exact search_peopledata_no_key env q2 l2 s2 h
  · intro h env q2 l2 s2
    exact search_seekout_no_key env q2 l2 s2 h
  · intro h env q2 l2 s2
    exact search_sourcehub_no_key env q2 l2 s2 h

/-! ### Concrete environments for the counterexamples -/

/-- Configuration with only the PeopleDataLabs key set. -/
def cfgPDL : Config := { PEOPLEDATA_KEY := some "k" }

/-- Environment where PeopleDataLabs answers 200 with an empty page and
every other request raises. -/
def envPDLEmpty : NetEnv :=
  { github := fun _ => .raised
    peopledata := .resp 200 []
    seekout := .raised
    sourcehub := .raised }

/-- PeopleDataLabs person whose job title does not match the query. -/
def pdlP1 : RawRecord :=
  { full_name := some "Ann One", email := some "a@x.com",
    job_title := some "plumber" }

/-- PeopleDataLabs person whose job title matches the query. -/
def pdlP2 : RawRecord :=
  { full_name := some "Bob Two", email := some "b@x.com",
    job_title := some "master electrician" }

/-- Environment where PeopleDataLabs returns the two persons above and
every other request raises. -/
def envTwoPDL : NetEnv :=
  { github := fun _ => .raised
    peopledata := .resp 200 [pdlP1, pdlP2]
    seekout := .raised
    sourcehub := .raised }

/-- C2 counterexample: with every credential missing the search returns an
empty candidate list, yet the result's provenance field is the non-empty
hardcoded list, not the empty set of succeeded providers the claim
requires. -/
theorem C2_counterexample :
    (search_external_candidates noKeysCfg envAllRaise "electrician" none none 20).1.candidates
      = [] ∧
    (search_external_candidates noKeysCfg envAllRaise "electrician" none none 20).1.sources_searched
      = ["GitHub", "Public Profiles"] ∧
    (["GitHub", "Public Profiles"] : List String) ≠ [] :=
  ⟨rfl, rfl, by decide⟩

/-- Witness for C2 at the credential-less configuration. -/
theorem C2_provenance_hardcoded_witness :
    (search_external_candidates noKeysCfg envAllRaise "electrician" none none 20).1.sources_searched
      = ["GitHub", "Public Profiles"] ∧
    (search_external_candidates noKeysCfg envAllRaise "electrician" none none 20).1.candidates
      = [] :=
  ⟨(C2_provenance_hardcoded noKeysCfg envAllRaise "electrician" none none 20).1,
   (C2_provenance_hardcoded noKeysCfg envAllRaise "electrician" none none 20).2 rfl rfl rfl rfl⟩

/-- C3 counterexample: an empty keyword raises nothing — the search returns
a normal aggregated result — and the PeopleDataLabs adapter was still
invoked (its HTTP request appears in the log). -/
theorem C3_counterexample :
    search_external_candidates cfgPDL envPDLEmpty "" none none 20
      = ({ candidates := [], total_found := 0,
           sources_searched := ["GitHub", "Public Profiles"] }, [pdlCall]) ∧
    ([pdlCall] : List String) ≠ [] :=
  ⟨rfl, by decide⟩

/-- Witness for C3 at the concrete PeopleDataLabs-only configuration. -/
theorem C3_empty_query_not_validated_witness :
    (search_external_candidates cfgPDL envPDLEmpty "" none none 20).2 ≠ [] :=
  C3_empty_query_not_validated cfgPDL envPDLEmpty none none 20 rfl

/-- C4 counterexample: two distinct candidates survive deduplication but
the limit is 1, so the claimed pre-truncation count is 2 while the code
reports `total_found = 1`. -/
theorem C4_counterexample :
    (search_public_profiles cfgPDL envTwoPDL "electrician" none none none).1.length = 2 ∧
    (search_external_candidates cfgPDL envTwoPDL "electrician" none none 1).1.total_found = 1 ∧
    (1 : Nat) ≠ 2 :=
  ⟨rfl, rfl, by decide⟩

/-- The non-matching person scores the base 5.0. -/
theorem c5_fit1 : estimate_fit_score pdlP1 "electrician" none = 5 := by
  simp only [estimate_fit_score, pdlP1]
  norm_num [show pyTruthyS (some "plumber") = true from rfl,
    show pyInStr (pyLower "electrician") (pyLower (pyOrS none "plumber")) = false from rfl,
    show pyTruthyL (none : Option (List String)) = false from rfl,
    show pyTruthyN (none : Option Nat) = false from rfl]

/-- The matching person scores 7.0. -/
theorem c5_fit2 : estimate_fit_score pdlP2 "electrician" none = 7 := by
  simp only [estimate_fit_score, pdlP2]
  norm_num [show pyTruthyS (some "master electrician") = true from rfl,
    show pyInStr (pyLower "electrician") (pyLower (pyOrS none "master electrician")) = true
      from rfl,
    show pyTruthyL (none : Option (List String)) = false from rfl,
    show pyTruthyN (none : Option Nat) = false from rfl]

/-- C5 counterexample: the returned candidate sequence carries fits
`[5, 7]` in provider order — not non-increasing, so no descending sort by
estimated fit happens. -/
theorem C5_counterexample :
    ¬ (((search_external_candidates cfgPDL envTwoPDL "electrician" none none 20).1.candidates.map
        fitOr5).Pairwise (fun a b => a ≥ b)) := by
  have hskel :
      (search_external_candidates cfgPDL envTwoPDL "electrician" none none 20).1.candidates.map
        fitOr5
      = [estimate_fit_score pdlP1 "electrician" none,
         estimate_fit_score pdlP2 "electrician" none] := rfl
  rw [hskel, c5_fit1, c5_fit2]
  intro hp
  rw [List.pairwise_cons] at hp
  have h57 := hp.1 7 (by simp)
  norm_num at h57

/-- Witness for C6 at a concrete credential-less configuration and the
all-raising environment. -/
theorem C6_fail_soft_witness :
    ((search_external_candidates noKeysCfg envAllRaise "electrician" none none 20).1.total_found
      = (search_external_candidates noKeysCfg envAllRaise "electrician" none none 20).1.candidates.length) ∧
    (search_external_candidates noKeysCfg envAllRaise "electrician" none none 20).1.candidates = [] ∧
    search_peopledata noKeysCfg envAllRaise "electrician" none none = ([], []) ∧
    search_seekout noKeysCfg envAllRaise "electrician" none none = ([], []) ∧
    search_sourcehub noKeysCfg envAllRaise "electrician" none none = ([], []) := by
  have h := C6_fail_soft noKeysCfg "electrician" none none 20 (by decide)
  exact ⟨h.1 envAllRaise, h.2.1, h.2.2.1 rfl envAllRaise "electrician" none none,
    h.2.2.2.1 rfl envAllRaise "electrician" none none,
    h.2.2.2.2 rfl envAllRaise "electrician" none none⟩
